import Mathlib

/-!
Shallow embedding of the Manaknight compiler (manaknight/mkd-node), covering
the parts of the source that the specification's claims are about: the error
catalog (src/src/compiler/errors.c, errors.h), the scoped symbol table
(symbols.c), the type checker (type_checker.c), the module dependency graph
(module_resolver.c), the two lexers (src/src/compiler/lexer.c `next_token`
and the `lexer_next_token` lexer used by the driver), the recursive-descent
parser (`parser_parse_program`), the canonical formatter (formatter.c), the
JS emitter (js_emitter.c) and the driver's `compile_manaknight` (mkc.c).

C heap state is rendered as explicit value passing; error reporting to
stderr is rendered as a list of reported error codes; allocation-failure
branches of the C source have no counterpart because allocation cannot fail
in the embedding.  All definitions are executable so that concrete runs are
decided by the kernel.
-/

namespace Manaknight

/-! ## Error catalog (errors.h / errors.c) -/

/-- Error categories, the `ErrorCategory` enum of errors.h. -/
inductive ErrorCategory where
  | CATEGORY_SYNTAX
  | CATEGORY_TYPE
  | CATEGORY_EFFECT
  | CATEGORY_PATTERN
  | CATEGORY_MODULE
  | CATEGORY_API
  | CATEGORY_RUNTIME
  | CATEGORY_RESOURCE
  | CATEGORY_INTERNAL
deriving DecidableEq, Repr

/-- Range bound `ERROR_SYNTAX_MIN` of errors.h. -/
def ERROR_SYNTAX_MIN : Nat := 1000

/-- Range bound `ERROR_SYNTAX_MAX` of errors.h. -/
def ERROR_SYNTAX_MAX : Nat := 1999

/-- Range bound `ERROR_TYPE_MIN` of errors.h. -/
def ERROR_TYPE_MIN : Nat := 2000

/-- Range bound `ERROR_TYPE_MAX` of errors.h. -/
def ERROR_TYPE_MAX : Nat := 2999

/-- Range bound `ERROR_EFFECT_MIN` of errors.h. -/
def ERROR_EFFECT_MIN : Nat := 3000

/-- Range bound `ERROR_EFFECT_MAX` of errors.h. -/
def ERROR_EFFECT_MAX : Nat := 3999

/-- Range bound `ERROR_PATTERN_MIN` of errors.h. -/
def ERROR_PATTERN_MIN : Nat := 4000

/-- Range bound `ERROR_PATTERN_MAX` of errors.h. -/
def ERROR_PATTERN_MAX : Nat := 4999

/-- Range bound `ERROR_MODULE_MIN` of errors.h. -/
def ERROR_MODULE_MIN : Nat := 5000

/-- Range bound `ERROR_MODULE_MAX` of errors.h. -/
def ERROR_MODULE_MAX : Nat := 5999

/-- Range bound `ERROR_API_MIN` of errors.h. -/
def ERROR_API_MIN : Nat := 6000

/-- Range bound `ERROR_API_MAX` of errors.h. -/
def ERROR_API_MAX : Nat := 6999

/-- Range bound `ERROR_RUNTIME_MIN` of errors.h. -/
def ERROR_RUNTIME_MIN : Nat := 7000

/-- Range bound `ERROR_RUNTIME_MAX` of errors.h. -/
def ERROR_RUNTIME_MAX : Nat := 7999

/-- Range bound `ERROR_RESOURCE_MIN` of errors.h. -/
def ERROR_RESOURCE_MIN : Nat := 8000

/-- Range bound `ERROR_RESOURCE_MAX` of errors.h. -/
def ERROR_RESOURCE_MAX : Nat := 8999

/-- Range bound `ERROR_INTERNAL_MIN` of errors.h. -/
def ERROR_INTERNAL_MIN : Nat := 9000

/-- Range bound `ERROR_INTERNAL_MAX` of errors.h. -/
def ERROR_INTERNAL_MAX : Nat := 9999

/-- Error code `E2001_UNKNOWN_IDENTIFIER` of errors.h. -/
def E2001_UNKNOWN_IDENTIFIER : Nat := 2001

/-- Error code `E2002_TYPE_MISMATCH` of errors.h. -/
def E2002_TYPE_MISMATCH : Nat := 2002

/-- Error code `E2003_INVALID_FUNCTION_CALL` of errors.h. -/
def E2003_INVALID_FUNCTION_CALL : Nat := 2003

/-- Error code `E2006_REASSIGNMENT_FORBIDDEN` of errors.h. -/
def E2006_REASSIGNMENT_FORBIDDEN : Nat := 2006

/-- Error code `E2007_INVALID_CONDITION_TYPE` of errors.h. -/
def E2007_INVALID_CONDITION_TYPE : Nat := 2007

/-- Error code `E3002_EFFECT_LEAKAGE` of errors.h. -/
def E3002_EFFECT_LEAKAGE : Nat := 3002

/-- Error code `E4001_NON_EXHAUSTIVE_MATCH` of errors.h. -/
def E4001_NON_EXHAUSTIVE_MATCH : Nat := 4001

/-- Error code `E4004_INCONSISTENT_MATCH_RESULT_TYPES` of errors.h. -/
def E4004_INCONSISTENT_MATCH_RESULT_TYPES : Nat := 4004

/-- Error code `E5004_CIRCULAR_DEPENDENCY` of errors.h. -/
def E5004_CIRCULAR_DEPENDENCY : Nat := 5004

/-- The `CompilerError` record of errors.h (`file` is a nullable pointer). -/
structure CompilerError where
  code : Nat
  category : ErrorCategory
  message : String
  file : Option String
  line : Nat
  column : Nat
deriving DecidableEq, Repr

/-- `create_error` of errors.c: the category is decided by the if-chain over
the nine thousand-ranges, with a final default of `CATEGORY_INTERNAL`. -/
def create_error (code : Nat) (message : String) (file : Option String)
    (line column : Nat) : CompilerError :=
  { code := code
    message := message
    file := file
    line := line
    column := column
    category :=
      if ERROR_SYNTAX_MIN ≤ code ∧ code ≤ ERROR_SYNTAX_MAX then .CATEGORY_SYNTAX
      else if ERROR_TYPE_MIN ≤ code ∧ code ≤ ERROR_TYPE_MAX then .CATEGORY_TYPE
      else if ERROR_EFFECT_MIN ≤ code ∧ code ≤ ERROR_EFFECT_MAX then .CATEGORY_EFFECT
      else if ERROR_PATTERN_MIN ≤ code ∧ code ≤ ERROR_PATTERN_MAX then .CATEGORY_PATTERN
      else if ERROR_MODULE_MIN ≤ code ∧ code ≤ ERROR_MODULE_MAX then .CATEGORY_MODULE
      else if ERROR_API_MIN ≤ code ∧ code ≤ ERROR_API_MAX then .CATEGORY_API
      else if ERROR_RUNTIME_MIN ≤ code ∧ code ≤ ERROR_RUNTIME_MAX then .CATEGORY_RUNTIME
      else if ERROR_RESOURCE_MIN ≤ code ∧ code ≤ ERROR_RESOURCE_MAX then .CATEGORY_RESOURCE
      else if ERROR_INTERNAL_MIN ≤ code ∧ code ≤ ERROR_INTERNAL_MAX then .CATEGORY_INTERNAL
      else .CATEGORY_INTERNAL }

/-! ## Types of the analyzer AST (the checker's ast.h) -/

/-- The `PrimitiveTypeKind` enum of the checker's ast.h. -/
inductive PrimitiveTypeKind where
  | PRIM_INT
  | PRIM_BOOL
  | PRIM_STRING
deriving DecidableEq, Repr

/-- The `Type` node of the checker's ast.h (named `Ty` here because `Type` is
taken in Lean).  A function type's return type is a nullable pointer in the
source, hence `Option Ty`. -/
inductive Ty where
  | primitive (primitive_kind : PrimitiveTypeKind)
  | named (name : String)
  | generic (name : String) (args : List Ty)
  | function (params : List Ty) (return_type : Option Ty) (effects : List String)

/-- `create_primitive_type` of ast.c. -/
def create_primitive_type (kind : PrimitiveTypeKind) : Ty := .primitive kind

/-- `create_named_type` of ast.c. -/
def create_named_type (name : String) : Ty := .named name

/-- `create_function_type` of ast.c. -/
def create_function_type (params : List Ty) (return_type : Option Ty)
    (effects : List String) : Ty :=
  .function params return_type effects

/-! ## Symbol table (symbols.h / symbols.c) -/

/-- The `SymbolKind` enum of symbols.h. -/
inductive SymbolKind where
  | SYMBOL_VARIABLE
  | SYMBOL_FUNCTION
  | SYMBOL_TYPE
  | SYMBOL_EFFECT
  | SYMBOL_MODULE
deriving DecidableEq, Repr

/-- The `Symbol` record of symbols.h.  The `declaration`, `is_mutable` and
`defined_in` fields play no part in any claim-relevant behaviour (the first
is an opaque pointer, the second is never read, the third only set) and are
not modelled. -/
structure Symbol where
  name : String
  kind : SymbolKind
  type : Option Ty

/-- The `Scope` record of symbols.h: the parent pointer is rendered by the
position of the scope in the table's scope stack. -/
structure Scope where
  symbols : List Symbol
  scope_name : Option String

/-- The `SymbolTable` record of symbols.h.  `inner_scopes` lists the scopes
strictly inside the global one, innermost first; the C `current_scope`
pointer is the head of `inner_scopes`, or `global_scope` when that list is
empty. -/
structure SymbolTable where
  global_scope : Scope
  inner_scopes : List Scope
  allow_shadows : Bool

/-- `create_scope` of symbols.c. -/
def create_scope (name : Option String) : Scope :=
  { symbols := [], scope_name := name }

/-- `create_symbol_table` of symbols.c: shadowing disallowed. -/
def create_symbol_table : SymbolTable :=
  { global_scope := create_scope (some "global"), inner_scopes := [], allow_shadows := false }

/-- The scope the C `current_scope` pointer designates. -/
def SymbolTable.current_scope (t : SymbolTable) : Scope :=
  t.inner_scopes.headD t.global_scope

/-- `enter_scope` of symbols.c. -/
def enter_scope (t : SymbolTable) (name : String) : SymbolTable :=
  { t with inner_scopes := create_scope (some name) :: t.inner_scopes }

/-- `exit_scope` of symbols.c: exiting the global scope is a no-op. -/
def exit_scope (t : SymbolTable) : SymbolTable :=
  match t.inner_scopes with
  | [] => t
  | _ :: rest => { t with inner_scopes := rest }

/-- `create_symbol` of symbols.c. -/
def create_symbol (name : String) (kind : SymbolKind) (type : Option Ty) : Symbol :=
  { name := name, kind := kind, type := type }

/-- `symbol_exists_in_current_scope` of symbols.c: scans only the current
scope, never the enclosing ones. -/
def symbol_exists_in_current_scope (t : SymbolTable) (name : String) : Bool :=
  t.current_scope.symbols.any (fun s => s.name == name)

/-- Append a symbol to the current scope (the array push of `declare_symbol`). -/
def SymbolTable.add_to_current (t : SymbolTable) (s : Symbol) : SymbolTable :=
  match t.inner_scopes with
  | [] => { t with global_scope := { t.global_scope with symbols := t.global_scope.symbols ++ [s] } }
  | sc :: rest => { t with inner_scopes := { sc with symbols := sc.symbols ++ [s] } :: rest }

/-- `declare_symbol` of symbols.c.  The returned list holds the error codes
passed to `report_type_error` (E2006 exactly when the declaration is
refused). -/
def declare_symbol (t : SymbolTable) (s : Symbol) : Bool × SymbolTable × List Nat :=
  if !t.allow_shadows && symbol_exists_in_current_scope t s.name then
    (false, t, [E2006_REASSIGNMENT_FORBIDDEN])
  else
    (true, t.add_to_current s, [])

/-- `resolve_symbol` of symbols.c: search from the current scope up to the
global scope, first match within a scope wins. -/
def resolve_symbol (t : SymbolTable) (name : String) : Option Symbol :=
  (t.inner_scopes ++ [t.global_scope]).findSome?
    (fun sc => sc.symbols.find? (fun s => s.name == name))

/-- `load_prelude` of symbols.c: switch the current scope to the global one,
declare the prelude type symbols there in source order (ignoring the results,
as the C does), restore the current scope. -/
def load_prelude (t : SymbolTable) : SymbolTable :=
  let tg : SymbolTable := { t with inner_scopes := [] }
  let tg := (declare_symbol tg (create_symbol "Option" .SYMBOL_TYPE (some (create_named_type "Option")))).2.1
  let tg := (declare_symbol tg (create_symbol "Result" .SYMBOL_TYPE (some (create_named_type "Result")))).2.1
  let tg := (declare_symbol tg (create_symbol "List" .SYMBOL_TYPE (some (create_named_type "List")))).2.1
  let tg := (declare_symbol tg (create_symbol "Map" .SYMBOL_TYPE (some (create_named_type "Map")))).2.1
  let tg := (declare_symbol tg (create_symbol "Bool" .SYMBOL_TYPE (some (create_primitive_type .PRIM_BOOL)))).2.1
  let tg := (declare_symbol tg (create_symbol "Int" .SYMBOL_TYPE (some (create_primitive_type .PRIM_INT)))).2.1
  let tg := (declare_symbol tg (create_symbol "String" .SYMBOL_TYPE (some (create_primitive_type .PRIM_STRING)))).2.1
  { t with global_scope := tg.global_scope }

/-! ## Analyzer AST expressions (the checker's ast.h) and the type checker
(type_checker.c) -/

/-- The `LiteralKind` enum of the checker's ast.h. -/
inductive LiteralKind where
  | LIT_INT
  | LIT_BOOL
  | LIT_STRING
deriving DecidableEq, Repr

/-- The `Pattern` node of the checker's ast.h.  Constructor field
sub-patterns are never read by the type checker and are not modelled. -/
inductive Pattern where
  | constructor (name : String)
  | wildcard
deriving DecidableEq, Repr

/-- The `Expr` node of the checker's ast.h.  A literal's value is never read
by the type checker (only `lit_kind` is), so only the kind is kept.  A match
case is the pattern paired with the case body.  The lambda body is never
visited (`type_check_expression` has no `NODE_LAMBDA_EXPR` case, so a lambda
falls into the default branch), hence it is not modelled. -/
inductive Expr where
  | literal (lit_kind : LiteralKind)
  | identifier (name : String)
  | call (callee : Expr) (args : List Expr)
  | lambda
  | if_expr (condition then_branch else_branch : Expr)
  | match_expr (scrutinee : Expr) (cases : List (Pattern × Expr))
  | pipe (left «right» : Expr)

/-- The `TypeChecker` record of type_checker.h, extended with the stream of
error codes the checker's calls to `report_type_error_at` print to stderr. -/
structure TypeChecker where
  symbol_table : SymbolTable
  has_errors : Bool
  errors : List Nat

/-- `create_type_checker` of type_checker.c. -/
def create_type_checker (table : SymbolTable) : TypeChecker :=
  { symbol_table := table, has_errors := false, errors := [] }

/-- `report_type_error_at` of type_checker.c: set `has_errors` and report the
code (the message, file and position arguments do not affect checker state). -/
def report_type_error_at (c : TypeChecker) (code : Nat) : TypeChecker :=
  { c with has_errors := true, errors := c.errors ++ [code] }

mutual

/-- `types_equal` of type_checker.c, on nullable pointers: NULL is equal to
nothing; function types compare parameter lists and return types but ignore
effects, as the source does. -/
def types_equal : Option Ty → Option Ty → Bool
  | some a, some b =>
    match a, b with
    | .primitive k1, .primitive k2 => k1 == k2
    | .named n1, .named n2 => n1 == n2
    | .generic n1 args1, .generic n2 args2 =>
      n1 == n2 && args1.length == args2.length && type_arrays_equal args1 args2
    | .function p1 r1 _, .function p2 r2 _ =>
      p1.length == p2.length && type_arrays_equal p1 p2 && types_equal r1 r2
    | _, _ => false
  | _, _ => false
termination_by a _ => sizeOf a

/-- `type_arrays_equal` of type_checker.c (the caller has already compared
the lengths). -/
def type_arrays_equal : List Ty → List Ty → Bool
  | x :: xs, y :: ys => types_equal (some x) (some y) && type_arrays_equal xs ys
  | _, _ => true
termination_by l1 _ => sizeOf l1 + 1
end

/-- `resolve_type` of type_checker.c: a named type resolves through the
symbol table to the symbol's type (which may be NULL); any other lookup
outcome returns the type unchanged. -/
def resolve_type (type : Option Ty) (symbols : SymbolTable) : Option Ty :=
  match type with
  | none => none
  | some t =>
    match t with
    | .named n =>
      match resolve_symbol symbols n with
      | some s => if s.kind == .SYMBOL_TYPE then s.type else some t
      | none => some t
    | _ => some t

/-- Does a nullable type match `kind == NODE_PRIMITIVE_TYPE &&
primitive_kind == PRIM_BOOL` (the test `type_check_if` negates)? -/
def is_bool_primitive : Option Ty → Bool
  | some (.primitive .PRIM_BOOL) => true
  | _ => false

/-- `type_check_literal` of type_checker.c. -/
def type_check_literal (c : TypeChecker) (k : LiteralKind) : Option Ty × TypeChecker :=
  match k with
  | .LIT_INT => (some (create_primitive_type .PRIM_INT), c)
  | .LIT_BOOL => (some (create_primitive_type .PRIM_BOOL), c)
  | .LIT_STRING => (some (create_primitive_type .PRIM_STRING), c)

/-- `type_check_identifier` of type_checker.c. -/
def type_check_identifier (c : TypeChecker) (name : String) : Option Ty × TypeChecker :=
  match resolve_symbol c.symbol_table name with
  | none => (none, report_type_error_at c E2001_UNKNOWN_IDENTIFIER)
  | some s => (resolve_type s.type c.symbol_table, c)

/-- The argument loop of `type_check_call`: stop with E2002 at the first
argument whose type is NULL or fails `types_equal` against its parameter. -/
def type_check_call_args_with (tc : TypeChecker → Expr → Option Ty × TypeChecker)
    (c : TypeChecker) : List Expr → List Ty → Bool × TypeChecker
  | a :: as_, p :: ps =>
    let at_ := tc c a
    if types_equal at_.1 (some p) then type_check_call_args_with tc at_.2 as_ ps
    else (false, report_type_error_at at_.2 E2002_TYPE_MISMATCH)
  | _, _ => (true, c)

/-- `type_check_call` of type_checker.c, parameterized by the checker used
for sub-expressions (`tc`, the open-recursion rendering of the C mutual
recursion): non-function callee or wrong arity is E2003; the first argument
whose type fails to unify is E2002; otherwise the resolved return type. -/
def type_check_call_with (tc : TypeChecker → Expr → Option Ty × TypeChecker)
    (c : TypeChecker) (callee : Expr) (args : List Expr) :
    Option Ty × TypeChecker :=
  let ct := tc c callee
  match ct.1 with
  | some (.function params return_type _) =>
    if args.length != params.length then
      (none, report_type_error_at ct.2 E2003_INVALID_FUNCTION_CALL)
    else
      let r := type_check_call_args_with tc ct.2 args params
      if r.1 then (resolve_type return_type r.2.symbol_table, r.2)
      else (none, r.2)
  | _ => (none, report_type_error_at ct.2 E2003_INVALID_FUNCTION_CALL)

/-- `type_check_if` of type_checker.c, parameterized by the sub-expression
checker: a condition that is not the Bool primitive is E2007; branch types
that fail `types_equal` (which is also false when either is NULL) are E2002;
otherwise the then-branch type. -/
def type_check_if_with (tc : TypeChecker → Expr → Option Ty × TypeChecker)
    (c : TypeChecker) (condition then_branch else_branch : Expr) :
    Option Ty × TypeChecker :=
  let ct := tc c condition
  if is_bool_primitive ct.1 then
    let tt := tc ct.2 then_branch
    let et := tc tt.2 else_branch
    if types_equal tt.1 et.1 then (tt.1, et.2)
    else (none, report_type_error_at et.2 E2002_TYPE_MISMATCH)
  else (none, report_type_error_at ct.2 E2007_INVALID_CONDITION_TYPE)

/-- The case loop of `type_check_match`, carrying `result_type`. -/
def type_check_match_cases_with (tc : TypeChecker → Expr → Option Ty × TypeChecker)
    (c : TypeChecker) (result_type : Option Ty) :
    List (Pattern × Expr) → Option Ty × TypeChecker
  | [] => (result_type, c)
  | (_, body) :: rest =>
    let bt := tc c body
    match bt.1 with
    | none => (none, bt.2)
    | some b =>
      match result_type with
      | none => type_check_match_cases_with tc bt.2 (some b) rest
      | some rt =>
        if types_equal (some rt) (some b) then
          type_check_match_cases_with tc bt.2 result_type rest
        else (none, report_type_error_at bt.2 E4004_INCONSISTENT_MATCH_RESULT_TYPES)

/-- `type_check_match` of type_checker.c, parameterized by the
sub-expression checker: a NULL scrutinee type aborts silently; case bodies
are then checked in order against the first body's type, E4004 on the first
mismatch.  No exhaustiveness check is performed here (the source comment
defers it). -/
def type_check_match_with (tc : TypeChecker → Expr → Option Ty × TypeChecker)
    (c : TypeChecker) (scrutinee : Expr) (cases : List (Pattern × Expr)) :
    Option Ty × TypeChecker :=
  let st := tc c scrutinee
  match st.1 with
  | none => (none, st.2)
  | some _ => type_check_match_cases_with tc st.2 none cases

/-- `type_check_pipe` of type_checker.c, parameterized by the sub-expression
checker. -/
def type_check_pipe_with (tc : TypeChecker → Expr → Option Ty × TypeChecker)
    (c : TypeChecker) (l r : Expr) : Option Ty × TypeChecker :=
  let lt := tc c l
  let rt := tc lt.2 r
  match lt.1, rt.1 with
  | some l0, some (.function params return_type _) =>
    match params with
    | [] => (none, report_type_error_at rt.2 E2002_TYPE_MISMATCH)
    | p0 :: _ =>
      if types_equal (some l0) (some p0) then
        (resolve_type return_type rt.2.symbol_table, rt.2)
      else (none, report_type_error_at rt.2 E2002_TYPE_MISMATCH)
  | _, _ => (none, report_type_error_at rt.2 E2003_INVALID_FUNCTION_CALL)

/-- `type_check_expression` of type_checker.c: dispatch on the node kind;
the default branch (reached by lambdas) reports E2001 "Unknown expression
type".  The C recursion is rendered with fuel so that the definition
computes by structural recursion; nesting one expression inside another
costs at least one `sizeOf` unit, so `sizeOf e` fuel (at least the nesting
depth plus one) never runs out when the wrapper below supplies it. -/
def type_check_expression_fuel : Nat → TypeChecker → Expr → Option Ty × TypeChecker
  | 0, c, _ => (none, c)
  | fuel + 1, c, e =>
    match e with
    | .literal k => type_check_literal c k
    | .identifier n => type_check_identifier c n
    | .call callee args =>
      type_check_call_with (type_check_expression_fuel fuel) c callee args
    | .if_expr condition then_branch else_branch =>
      type_check_if_with (type_check_expression_fuel fuel) c condition then_branch else_branch
    | .match_expr scrutinee cases =>
      type_check_match_with (type_check_expression_fuel fuel) c scrutinee cases
    | .pipe l r => type_check_pipe_with (type_check_expression_fuel fuel) c l r
    | .lambda => (none, report_type_error_at c E2001_UNKNOWN_IDENTIFIER)

/-- `check_match_exhaustiveness` of type_checker.c, verbatim: a placeholder
that reports nothing and accepts every match ("Implementation would check
that all ADT constructors are covered"). -/
def check_match_exhaustiveness (c : TypeChecker) (_match_expr : Expr) :
    Bool × TypeChecker :=
  (true, c)

/-! ## Module dependency graph (module_resolver.c) -/

/-- The `DependencyGraph` record of module_resolver.h: module names plus a
square boolean adjacency matrix (`dependencies[i][j]` means module `i`
depends on module `j`). -/
structure DependencyGraph where
  modules : List String
  dependencies : List (List Bool)
deriving DecidableEq, Repr

/-- `create_dependency_graph` of module_resolver.c. -/
def create_dependency_graph : DependencyGraph :=
  { modules := [], dependencies := [] }

/-- `add_module_to_graph` of module_resolver.c: a known name leaves the graph
unchanged; a new name is appended, every existing row gains a false column,
and a fresh all-false row is added. -/
def add_module_to_graph (g : DependencyGraph) (module_name : String) : DependencyGraph :=
  if g.modules.contains module_name then g
  else
    { modules := g.modules ++ [module_name]
      dependencies :=
        g.dependencies.map (fun row => row ++ [false])
          ++ [List.replicate (g.modules.length + 1) false] }

/-- The index-search loop of `add_dependency_to_graph`: the C loop scans the
whole array and keeps the last index whose name matches. -/
def find_module_idx_last (names : List String) (name : String) : Option Nat :=
  go names 0 none
where
  go : List String → Nat → Option Nat → Option Nat
    | [], _, acc => acc
    | n :: rest, i, acc => go rest (i + 1) (if n == name then some i else acc)

/-- Read `dependencies[i][j]` (false outside the matrix). -/
def DependencyGraph.dep_at (g : DependencyGraph) (i j : Nat) : Bool :=
  (g.dependencies.getD i []).getD j false

/-- `add_dependency_to_graph` of module_resolver.c: false when either module
is not in the graph, otherwise set the matrix cell. -/
def add_dependency_to_graph (g : DependencyGraph) (from_module to_module : String) :
    Bool × DependencyGraph :=
  match find_module_idx_last g.modules from_module,
      find_module_idx_last g.modules to_module with
  | some from_idx, some to_idx =>
    (true,
      { g with dependencies :=
          g.dependencies.set from_idx ((g.dependencies.getD from_idx []).set to_idx true) })
  | _, _ => (false, g)

/-- `dfs_cycle_detect` of module_resolver.c: mark the node visited and on
the recursion stack, walk its out-edges in index order, and unmark the stack
entry on a cycle-free return.  The C early-returns true from inside the
edge loop; here the loop is a fold over the column indices whose
accumulator carries (found, visited, rec_stack) and skips the remaining
columns once found — the same traversal, since the C does no further work
after returning.  The C recursion needs no fuel (each recursive call
targets an unvisited node and marks it at once, so its depth is at most the
module count); the fuel only makes that bound explicit, and callers pass
`modules.length + 1`. -/
def dfs_cycle_detect (g : DependencyGraph) :
    Nat → Nat → List Bool → List Bool → Bool × List Bool × List Bool
  | 0, _, visited, rec_stack => (false, visited, rec_stack)
  | fuel + 1, node_idx, visited, rec_stack =>
    let visited := visited.set node_idx true
    let rec_stack := rec_stack.set node_idx true
    let walked := (List.range g.modules.length).foldl
      (fun (acc : Bool × List Bool × List Bool) i =>
        if acc.1 then acc
        else if g.dep_at node_idx i then
          if !(acc.2.1.getD i false) then
            let sub := dfs_cycle_detect g fuel i acc.2.1 acc.2.2
            if sub.1 then sub
            else if sub.2.2.getD i false then (true, sub.2.1, sub.2.2)
            else (false, sub.2.1, sub.2.2)
          else if acc.2.2.getD i false then (true, acc.2.1, acc.2.2)
          else acc
        else acc)
      (false, visited, rec_stack)
    if walked.1 then walked
    else (false, walked.2.1, walked.2.2.set node_idx false)

/-- `detect_cycle` of module_resolver.c: find the start module (first match,
the loop breaks), run the DFS with fresh all-false `visited` and `rec_stack`
arrays. -/
def detect_cycle (g : DependencyGraph) (start_module : String) : Bool :=
  match g.modules.findIdx? (fun n => n == start_module) with
  | none => false
  | some start_idx =>
    (dfs_cycle_detect g (g.modules.length + 1) start_idx
      (List.replicate g.modules.length false)
      (List.replicate g.modules.length false)).1

/-- `has_circular_dependency` of module_resolver.c (the resolver record only
forwards its `dep_graph` field). -/
def has_circular_dependency (g : DependencyGraph) (module_name : String) : Bool :=
  detect_cycle g module_name

/-- `add_dependency` of module_resolver.c: run the cycle check on the graph
as it stands — before the new edge is inserted — from the dependent module;
report E5004 and refuse when it finds a cycle, otherwise insert the edge.
The returned list holds the codes passed to `report_module_error`. -/
def add_dependency (g : DependencyGraph) (dependent dependency : String) :
    Bool × DependencyGraph × List Nat :=
  if has_circular_dependency g dependent then
    (false, g, [E5004_CIRCULAR_DEPENDENCY])
  else
    let (ok, g1) := add_dependency_to_graph g dependent dependency
    (ok, g1, [])

/-! ## The scanner of src/src/compiler/lexer.c (`next_token`) -/

/-- The `TOKEN_*` token-type enum lexer.c is written against. -/
inductive TokenType where
  | TOKEN_FUNCTION | TOKEN_LET | TOKEN_IF | TOKEN_ELSE | TOKEN_MATCH
  | TOKEN_EFFECT | TOKEN_API | TOKEN_MODULE | TOKEN_TYPE | TOKEN_USES
  | TOKEN_FN | TOKEN_TRUE | TOKEN_FALSE | TOKEN_SOME | TOKEN_NONE
  | TOKEN_OK | TOKEN_ERR
  | TOKEN_INT_LITERAL | TOKEN_STRING_LITERAL | TOKEN_IDENTIFIER
  | TOKEN_PLUS | TOKEN_MINUS | TOKEN_STAR | TOKEN_SLASH | TOKEN_MOD
  | TOKEN_EQUALS | TOKEN_DOUBLE_EQUALS | TOKEN_NOT_EQUALS
  | TOKEN_LESS | TOKEN_LESS_EQUALS | TOKEN_GREATER | TOKEN_GREATER_EQUALS
  | TOKEN_NOT | TOKEN_AND | TOKEN_OR
  | TOKEN_LPAREN | TOKEN_RPAREN | TOKEN_LBRACE | TOKEN_RBRACE
  | TOKEN_LBRACKET | TOKEN_RBRACKET | TOKEN_COMMA | TOKEN_COLON
  | TOKEN_SEMICOLON | TOKEN_DOT | TOKEN_PIPE | TOKEN_PIPE_RIGHT
  | TOKEN_ARROW | TOKEN_EQUALS_SIGN | TOKEN_EOF | TOKEN_ERROR
deriving DecidableEq, Repr

/-- The `Token` record of lexer.c (`make_token` / `make_error_token`):
`lexeme` is the source slice (or the error message), `length` its length.
The `literal` union (`make_literal_token`) is never read by any claim's code
path and is not modelled. -/
structure CToken where
  type : TokenType
  lexeme : String
  length : Nat
  line : Nat
  column : Nat
deriving DecidableEq, Repr

/-- The `Lexer` record of lexer.c. -/
structure CLexer where
  source : List Char
  current : Nat
  start : Nat
  line : Nat
  column : Nat
deriving DecidableEq, Repr

/-- `create_lexer` of lexer.c. -/
def create_lexer (source : String) : CLexer :=
  { source := source.data, current := 0, start := 0, line := 1, column := 1 }

/-- `is_at_end` of lexer.c. -/
def CLexer.is_at_end (lx : CLexer) : Bool :=
  lx.source.length ≤ lx.current

/-- `peek` of lexer.c: the NUL character past the end. -/
def CLexer.peek (lx : CLexer) : Char :=
  lx.source.getD lx.current (Char.ofNat 0)

/-- `peek_next` of lexer.c. -/
def CLexer.peek_next (lx : CLexer) : Char :=
  lx.source.getD (lx.current + 1) (Char.ofNat 0)

/-- `advance` of lexer.c: consume one character, tracking line and column. -/
def CLexer.advance (lx : CLexer) : Char × CLexer :=
  let c := lx.source.getD lx.current (Char.ofNat 0)
  let lx1 := { lx with current := lx.current + 1 }
  if c = '\n' then (c, { lx1 with line := lx1.line + 1, column := 1 })
  else (c, { lx1 with column := lx1.column + 1 })

/-- `match` of lexer.c (a Lean keyword, hence `match_char`): consume the next
character exactly when it is the expected one. -/
def CLexer.match_char (lx : CLexer) (expected : Char) : Bool × CLexer :=
  if lx.is_at_end then (false, lx)
  else if lx.source.getD lx.current (Char.ofNat 0) ≠ expected then (false, lx)
  else (true, (lx.advance).2)

/-- `make_token` of lexer.c: the lexeme runs from `start` to `current`; the
column points at the token start (truncated subtraction standing in for the
uint32 arithmetic). -/
def make_token (lx : CLexer) (type : TokenType) : CToken :=
  { type := type
    lexeme := ((lx.source.drop lx.start).take (lx.current - lx.start)).asString
    length := lx.current - lx.start
    line := lx.line
    column := lx.column - (lx.current - lx.start) }

/-- `make_error_token` of lexer.c. -/
def make_error_token (lx : CLexer) (message : String) : CToken :=
  { type := .TOKEN_ERROR
    lexeme := message
    length := message.length
    line := lx.line
    column := lx.column }

/-- `isdigit` over the C default locale. -/
def c_isdigit (c : Char) : Bool := '0' ≤ c && c ≤ '9'

/-- `isalpha` over the C default locale. -/
def c_isalpha (c : Char) : Bool :=
  ('a' ≤ c && c ≤ 'z') || ('A' ≤ c && c ≤ 'Z')

/-- `isalnum` over the C default locale. -/
def c_isalnum (c : Char) : Bool := c_isalpha c || c_isdigit c

/-- `is_identifier_start` of lexer.c. -/
def is_identifier_start (c : Char) : Bool := c_isalpha c || c = '_'

/-- `is_identifier_char` of lexer.c. -/
def is_identifier_char (c : Char) : Bool := c_isalnum c || c = '_'

/-- The comment-skipping inner while of `skip_whitespace_and_comments`
(`while (peek != '\n' && !is_at_end) advance`).  Loops take fuel; every
iteration consumes a character, so `source.length + 1` always suffices. -/
def skip_comment_loop : Nat → CLexer → CLexer
  | 0, lx => lx
  | fuel + 1, lx =>
    if lx.peek ≠ '\n' && !lx.is_at_end then skip_comment_loop fuel (lx.advance).2
    else lx

/-- `skip_whitespace_and_comments` of lexer.c: blanks and newlines are
consumed; `//` starts a comment running to the line end; anything else (the
NUL read past the end included) stops the loop. -/
def skip_ws_loop : Nat → CLexer → CLexer
  | 0, lx => lx
  | fuel + 1, lx =>
    let c := lx.peek
    if c = ' ' || c = '\r' || c = '\t' || c = '\n' then skip_ws_loop fuel (lx.advance).2
    else if c = '/' then
      if lx.peek_next = '/' then skip_ws_loop fuel (skip_comment_loop (lx.source.length + 1) lx)
      else lx
    else lx

/-- `skip_whitespace_and_comments` of lexer.c with its fuel filled in. -/
def skip_whitespace_and_comments (lx : CLexer) : CLexer :=
  skip_ws_loop (lx.source.length + 1) lx

/-- The while of `string` in lexer.c: stop at a closing quote or the end; a
newline inside the literal is the error exit. -/
def string_scan : Nat → CLexer → CToken × CLexer
  | 0, lx => (make_error_token lx "Unterminated string literal", lx)
  | fuel + 1, lx =>
    if lx.peek ≠ '"' && !lx.is_at_end then
      if lx.peek = '\n' then (make_error_token lx "Unterminated string literal", lx)
      else string_scan fuel (lx.advance).2
    else if lx.is_at_end then (make_error_token lx "Unterminated string literal", lx)
    else
      let lx := (lx.advance).2
      (make_token lx .TOKEN_STRING_LITERAL, lx)

/-- `number` of lexer.c. -/
def number_scan : Nat → CLexer → CToken × CLexer
  | 0, lx => (make_token lx .TOKEN_INT_LITERAL, lx)
  | fuel + 1, lx =>
    if c_isdigit lx.peek then number_scan fuel (lx.advance).2
    else (make_token lx .TOKEN_INT_LITERAL, lx)

/-- The scan loop of `identifier_or_keyword` in lexer.c. -/
def identifier_scan : Nat → CLexer → CLexer
  | 0, lx => lx
  | fuel + 1, lx =>
    if is_identifier_char lx.peek then identifier_scan fuel (lx.advance).2
    else lx

/-- `identifier_or_keyword` of lexer.c: scan, then try the keyword table in
source order. -/
def identifier_or_keyword (lx : CLexer) : CToken × CLexer :=
  let lx := identifier_scan (lx.source.length + 1) lx
  let text := ((lx.source.drop lx.start).take (lx.current - lx.start)).asString
  let type : TokenType :=
    if text == "function" then .TOKEN_FUNCTION
    else if text == "let" then .TOKEN_LET
    else if text == "if" then .TOKEN_IF
    else if text == "else" then .TOKEN_ELSE
    else if text == "match" then .TOKEN_MATCH
    else if text == "effect" then .TOKEN_EFFECT
    else if text == "api" then .TOKEN_API
    else if text == "module" then .TOKEN_MODULE
    else if text == "type" then .TOKEN_TYPE
    else if text == "uses" then .TOKEN_USES
    else if text == "fn" then .TOKEN_FN
    else if text == "true" then .TOKEN_TRUE
    else if text == "false" then .TOKEN_FALSE
    else if text == "some" then .TOKEN_SOME
    else if text == "none" then .TOKEN_NONE
    else if text == "ok" then .TOKEN_OK
    else if text == "err" then .TOKEN_ERR
    else .TOKEN_IDENTIFIER
  (make_token lx type, lx)

/-- `next_token` of lexer.c.  The single-character switch runs first and
already returns on `(`, `)`, `{`, `}`, `[`, `]`, `,`, `:`, `;`, `.`, `|`,
`+`, `-`, `*`, `/`, `%`, `=`, `<`, `>`, `!`, `&`, `o` and `"`; the
two-character tests that follow it in the source are therefore unreachable
for `==`, `!=`, `<=`, `>=`, `->` and `|>` (their first characters are all
switch cases), and they are kept below exactly as written. -/
def next_token (lx : CLexer) : CToken × CLexer :=
  let lx := skip_whitespace_and_comments lx
  let lx := { lx with start := lx.current }
  if lx.is_at_end then (make_token lx .TOKEN_EOF, lx)
  else
    let (c, lx1) := lx.advance
    match c with
    | '(' => (make_token lx1 .TOKEN_LPAREN, lx1)
    | ')' => (make_token lx1 .TOKEN_RPAREN, lx1)
    | '{' => (make_token lx1 .TOKEN_LBRACE, lx1)
    | '}' => (make_token lx1 .TOKEN_RBRACE, lx1)
    | '[' => (make_token lx1 .TOKEN_LBRACKET, lx1)
    | ']' => (make_token lx1 .TOKEN_RBRACKET, lx1)
    | ',' => (make_token lx1 .TOKEN_COMMA, lx1)
    | ':' => (make_token lx1 .TOKEN_COLON, lx1)
    | ';' => (make_token lx1 .TOKEN_SEMICOLON, lx1)
    | '.' => (make_token lx1 .TOKEN_DOT, lx1)
    | '|' => (make_token lx1 .TOKEN_PIPE, lx1)
    | '+' => (make_token lx1 .TOKEN_PLUS, lx1)
    | '-' => (make_token lx1 .TOKEN_MINUS, lx1)
    | '*' => (make_token lx1 .TOKEN_STAR, lx1)
    | '/' => (make_token lx1 .TOKEN_SLASH, lx1)
    | '%' => (make_token lx1 .TOKEN_MOD, lx1)
    | '=' => (make_token lx1 .TOKEN_EQUALS_SIGN, lx1)
    | '<' => (make_token lx1 .TOKEN_LESS, lx1)
    | '>' => (make_token lx1 .TOKEN_GREATER, lx1)
    | '!' => (make_token lx1 .TOKEN_NOT, lx1)
    | '&' => (make_token lx1 .TOKEN_AND, lx1)
    | 'o' => (make_token lx1 .TOKEN_OR, lx1)
    | '"' => string_scan (lx1.source.length + 1) lx1
    | _ =>
      if c = '=' then
        let (m, lx2) := lx1.match_char '='
        if m then (make_token lx2 .TOKEN_DOUBLE_EQUALS, lx2)
        else next_token_tail c lx2
      else if c = '!' then
        let (m, lx2) := lx1.match_char '='
        if m then (make_token lx2 .TOKEN_NOT_EQUALS, lx2)
        else next_token_tail c lx2
      else if c = '<' then
        let (m, lx2) := lx1.match_char '='
        if m then (make_token lx2 .TOKEN_LESS_EQUALS, lx2)
        else next_token_tail c lx2
      else if c = '>' then
        let (m, lx2) := lx1.match_char '='
        if m then (make_token lx2 .TOKEN_GREATER_EQUALS, lx2)
        else next_token_tail c lx2
      else if c = '-' then
        let (m, lx2) := lx1.match_char '>'
        if m then (make_token lx2 .TOKEN_ARROW, lx2)
        else next_token_tail c lx2
      else if c = '|' then
        let (m, lx2) := lx1.match_char '>'
        if m then (make_token lx2 .TOKEN_PIPE_RIGHT, lx2)
        else next_token_tail c lx2
      else next_token_tail c lx1
where
  /-- The number / identifier / error tail of `next_token`. -/
  next_token_tail (c : Char) (lx : CLexer) : CToken × CLexer :=
    if c_isdigit c then number_scan (lx.source.length + 1) lx
    else if is_identifier_start c then identifier_or_keyword lx
    else (make_error_token lx "Unexpected character", lx)

/-! ## The driver's lexer (`lexer_create` / `lexer_next_token`) -/

/-- The `TOK_*` token-type enum of lexer.h. -/
inductive MkTokenType where
  | TOK_EOF | TOK_IDENTIFIER | TOK_INT_LITERAL | TOK_STRING_LITERAL
  | TOK_BOOL_LITERAL | TOK_UNIT_LITERAL
  | TOK_FN | TOK_LET | TOK_IF | TOK_ELSE | TOK_MATCH | TOK_TYPE
  | TOK_EFFECT | TOK_IMPORT | TOK_API | TOK_GET | TOK_POST | TOK_PUT
  | TOK_DELETE | TOK_HEAD
  | TOK_LPAREN | TOK_RPAREN | TOK_LBRACE | TOK_RBRACE | TOK_LBRACKET
  | TOK_RBRACKET | TOK_COMMA | TOK_COLON | TOK_SEMICOLON | TOK_DOT
  | TOK_PIPE | TOK_ARROW | TOK_EQUALS | TOK_DOUBLE_EQUALS | TOK_NOT_EQUALS
  | TOK_LESS | TOK_GREATER | TOK_LESS_EQUALS | TOK_GREATER_EQUALS
  | TOK_PLUS | TOK_MINUS | TOK_STAR | TOK_SLASH | TOK_PERCENT
  | TOK_EXCLAMATION | TOK_QUESTION | TOK_AMPERSAND | TOK_DOUBLE_AMPERSAND
  | TOK_DOUBLE_PIPE | TOK_UNDERSCORE | TOK_INVALID
deriving DecidableEq, Repr

/-- The `Token` record of lexer.h.  `text` is NULL only for the EOF token,
rendered here as the empty string; the `value` union (int/bool payloads) is
never read by the parser, which works from `text`, and is not modelled. -/
structure MkToken where
  type : MkTokenType
  text : String
  line : Nat
  column : Nat
deriving DecidableEq, Repr

/-- The `Lexer` record of lexer.h (`source_len` is `source.length`). -/
structure MkLexer where
  source : List Char
  position : Nat
  line : Nat
  column : Nat
deriving DecidableEq, Repr

/-- `lexer_create` of the driver's lexer. -/
def lexer_create (source : String) : MkLexer :=
  { source := source.data, position := 0, line := 1, column := 1 }

/-- The comment inner while (`while position < len && source[position] != '\n'
position++`) as the first newline position at or after `i` (or the length). -/
def mk_comment_end (source : List Char) (i : Nat) : Nat :=
  i + ((source.drop i).takeWhile (fun c => c ≠ '\n')).length

/-- The whitespace-and-comment loop at the head of `lexer_next_token`:
blanks advance the column, a newline the line; a `//` comment is skipped to
the line end without touching line or column, exactly as the source does.
Loops take fuel; each iteration consumes a character, so `source.length + 1`
always suffices. -/
def mk_skip_loop : Nat → MkLexer → MkLexer
  | 0, lx => lx
  | fuel + 1, lx =>
    if lx.position < lx.source.length then
      let c := lx.source.getD lx.position (Char.ofNat 0)
      if c = ' ' || c = '\t' || c = '\r' then
        mk_skip_loop fuel { lx with position := lx.position + 1, column := lx.column + 1 }
      else if c = '\n' then
        mk_skip_loop fuel { lx with position := lx.position + 1, line := lx.line + 1, column := 1 }
      else if c = '/' && lx.source.getD (lx.position + 1) (Char.ofNat 0) = '/'
          && lx.position + 1 < lx.source.length then
        mk_skip_loop fuel { lx with position := mk_comment_end lx.source (lx.position) }
      else lx
    else lx

/-- The identifier while of `lexer_next_token`: the end position of the run
of identifier characters starting at `i`, with the column advanced in step. -/
def mk_ident_end (source : List Char) (i : Nat) : Nat :=
  i + ((source.drop i).takeWhile (fun c => c_isalnum c || c = '_')).length

/-- The digit while of `lexer_next_token`. -/
def mk_digits_end (source : List Char) (i : Nat) : Nat :=
  i + ((source.drop i).takeWhile c_isdigit).length

/-- The string while of `lexer_next_token`: from position `i` (just past the
opening quote), stop before an unescaped `"` or past the end; a backslash
skips the escape character, advancing by two, which can overshoot the length
by one — the source arithmetic is kept, including that overshoot. -/
def mk_string_end : Nat → List Char → Nat → Nat
  | 0, _, i => i
  | fuel + 1, source, i =>
    if i < source.length then
      if source.getD i (Char.ofNat 0) = '"' then i
      else if source.getD i (Char.ofNat 0) = '\\' then mk_string_end fuel source (i + 2)
      else mk_string_end fuel source (i + 1)
    else i

/-- `lexer_next_token` of the driver's lexer: skip blanks and comments, then
scan an identifier/keyword, a string literal (escapes skipped, the text kept
raw, and — as in the source — the final character dropped when the literal
is unterminated, because the closing-quote adjustment runs unconditionally
in the length arithmetic), an integer literal, or a one-character symbol
(`->` is the only two-character lookahead; `<`, `>` and every other
unlisted character fall to `TOK_INVALID`). -/
def lexer_next_token (lx : MkLexer) : MkToken × MkLexer :=
  let lx := mk_skip_loop (lx.source.length + 1) lx
  if lx.source.length ≤ lx.position then
    ({ type := .TOK_EOF, text := "", line := lx.line, column := lx.column }, lx)
  else
    let c := lx.source.getD lx.position (Char.ofNat 0)
    let start_line := lx.line
    let start_column := lx.column
    if c_isalpha c || c = '_' then
      let start := lx.position
      let stop := mk_ident_end lx.source start
      let text := ((lx.source.drop start).take (stop - start)).asString
      let type : MkTokenType :=
        if text == "fn" then .TOK_FN
        else if text == "let" then .TOK_LET
        else if text == "if" then .TOK_IF
        else if text == "else" then .TOK_ELSE
        else if text == "match" then .TOK_MATCH
        else if text == "type" then .TOK_TYPE
        else if text == "effect" then .TOK_EFFECT
        else if text == "import" then .TOK_IMPORT
        else if text == "api" then .TOK_API
        else if text == "get" then .TOK_GET
        else if text == "true" then .TOK_BOOL_LITERAL
        else if text == "false" then .TOK_BOOL_LITERAL
        else if text == "unit" then .TOK_UNIT_LITERAL
        else .TOK_IDENTIFIER
      ({ type := type, text := text, line := start_line, column := start_column },
        { lx with position := stop, column := lx.column + (stop - start) })
    else if c = '"' then
      let start := lx.position + 1
      let scan_stop := mk_string_end (lx.source.length + 1) lx.source start
      let stop := if scan_stop < lx.source.length then scan_stop + 1 else scan_stop
      let length := stop - start - 1
      let text := ((lx.source.drop start).take length).asString
      ({ type := .TOK_STRING_LITERAL, text := text, line := start_line, column := start_column },
        { lx with position := stop, column := lx.column + (stop - lx.position) })
    else if c_isdigit c then
      let start := lx.position
      let stop := mk_digits_end lx.source start
      let text := ((lx.source.drop start).take (stop - start)).asString
      ({ type := .TOK_INT_LITERAL, text := text, line := start_line, column := start_column },
        { lx with position := stop, column := lx.column + (stop - start) })
    else
      let lx1 := { lx with position := lx.position + 1, column := lx.column + 1 }
      let mk := fun (t : MkTokenType) (txt : String) =>
        ({ type := t, text := txt, line := start_line, column := start_column }, lx1)
      match c with
      | '(' => mk .TOK_LPAREN "("
      | ')' => mk .TOK_RPAREN ")"
      | '{' => mk .TOK_LBRACE "\x7b"
      | '}' => mk .TOK_RBRACE "\x7d"
      | '[' => mk .TOK_LBRACKET "["
      | ']' => mk .TOK_RBRACKET "]"
      | ',' => mk .TOK_COMMA ","
      | ':' => mk .TOK_COLON ":"
      | ';' => mk .TOK_SEMICOLON ";"
      | '.' => mk .TOK_DOT "."
      | '|' => mk .TOK_PIPE "|"
      | '=' => mk .TOK_EQUALS "="
      | '+' => mk .TOK_PLUS "+"
      | '-' =>
        if lx1.position < lx1.source.length
            && lx1.source.getD lx1.position (Char.ofNat 0) = '>' then
          ({ type := .TOK_ARROW, text := "->", line := start_line, column := start_column },
            { lx1 with position := lx1.position + 1, column := lx1.column + 1 })
        else mk .TOK_MINUS "-"
      | '*' => mk .TOK_STAR "*"
      | '/' => mk .TOK_SLASH "/"
      | '%' => mk .TOK_PERCENT "%"
      | '!' => mk .TOK_EXCLAMATION "!"
      | '?' => mk .TOK_QUESTION "?"
      | '&' => mk .TOK_AMPERSAND "&"
      | '_' => mk .TOK_UNDERSCORE "_"
      | other => mk .TOK_INVALID (String.mk [other])

/-- Run `lexer_next_token` to the EOF token, collecting the tokens before it
(the EOF token itself is the parser's end-of-stream, rendered by the empty
list).  Every non-EOF token consumes at least one character, so
`source.length + 1` calls always reach EOF. -/
def mk_tokenize_loop : Nat → MkLexer → List MkToken
  | 0, _ => []
  | fuel + 1, lx =>
    let (t, lx1) := lexer_next_token lx
    if t.type = .TOK_EOF then [] else t :: mk_tokenize_loop fuel lx1

/-- The token stream of a source string, as the parser consumes it. -/
def mk_tokenize (source : String) : List MkToken :=
  mk_tokenize_loop (source.length + 1) (lexer_create source)

/-! ## Parser AST (ast.h of src/src/compiler) -/

/-- The `Literal` node of ast.h: kind plus the matching value union member. -/
inductive LitVal where
  | LIT_INT64 (int64_val : Int)
  | LIT_STRING (string_val : String)
  | LIT_BOOL (bool_val : Bool)
  | LIT_UNIT
deriving DecidableEq, Repr

mutual

/-- The expression nodes of ast.h that the parser can build and that the
formatter and JS emitter print: literal, identifier and call.  Every other
expression node kind (lambda, if, match, pipe — none of which
`parser_parse_block` ever constructs) falls into the printers' default
branch and is collapsed into `other_node` here.  The argument array is a
mutually defined list so that the printers recurse structurally. -/
inductive JExpr where
  | literal (v : LitVal)
  | identifier (name : String)
  | call (function : JExpr) (arguments : JExprArgs)
  | other_node

/-- A `Expr**` argument array of ast.h. -/
inductive JExprArgs where
  | nil
  | cons (head : JExpr) (tail : JExprArgs)

end

/-- The `Block` node of ast.h.  `parser_parse_block` never constructs
statement nodes and both printers emit a fixed placeholder line per
statement, so only the count is kept. -/
structure Block where
  statement_count : Nat
  result_expr : Option JExpr

/-- The `FunctionDecl` node of ast.h.  The parser leaves `param_names`,
`effect_names` and `return_type` NULL/empty and neither printer reads them,
so they are not modelled; `body` is a nullable pointer. -/
structure FunctionDecl where
  name : String
  body : Option Block

/-- The `ApiRoute` node of ast.h. -/
structure ApiRoute where
  method : String
  path : String
  handler : FunctionDecl

/-- The `Module` node of ast.h.  The `types`, `effects` and `imports` arrays
stay empty through the whole pipeline and are not modelled. -/
structure Module where
  name : String
  path : String
  api_routes : List ApiRoute
  functions : List FunctionDecl

/-- The `Program` node of ast.h. -/
structure Program where
  modules : List Module

/-! ## Parser (`parser_create` / `parser_parse_program`) -/

/-- The parser's current token: the head of the remaining stream, or the
EOF token once the stream is exhausted (the C lexer returns `TOK_EOF`
forever at the end of input). -/
def cur_token (ts : List MkToken) : MkToken :=
  ts.headD { type := .TOK_EOF, text := "", line := 0, column := 0 }

/-- `parser_parse_block`: consume the `{` the caller stopped at; a string
literal becomes the block's `result_expr` and a following `}` is consumed;
anything else leaves an empty block with the token stream where it stands. -/
def parser_parse_block (ts : List MkToken) : Block × List MkToken :=
  let ts := ts.tail
  if (cur_token ts).type = .TOK_STRING_LITERAL then
    let result := some (JExpr.literal (.LIT_STRING (cur_token ts).text))
    let ts := ts.tail
    if (cur_token ts).type = .TOK_RBRACE then
      ({ statement_count := 0, result_expr := result }, ts.tail)
    else
      ({ statement_count := 0, result_expr := result }, ts)
  else
    ({ statement_count := 0, result_expr := none }, ts)

/-- `parser_parse_function`: consume `fn`, then expect name, `(`, `)` (no
parameters are parsed), `->`, skip everything up to the `\x7b` opening the
body (or the end of input), and parse the block.  Any failed expectation
returns NULL with the stream as it stands. -/
def parser_parse_function (ts : List MkToken) : Option FunctionDecl × List MkToken :=
  let ts := ts.tail
  if (cur_token ts).type ≠ .TOK_IDENTIFIER then (none, ts)
  else
    let name := (cur_token ts).text
    let ts := ts.tail
    if (cur_token ts).type ≠ .TOK_LPAREN then (none, ts)
    else
      let ts := ts.tail
      if (cur_token ts).type ≠ .TOK_RPAREN then (none, ts)
      else
        let ts := ts.tail
        if (cur_token ts).type ≠ .TOK_ARROW then (none, ts)
        else
          let ts := ts.tail
          let ts := ts.dropWhile
            (fun t => t.type ≠ .TOK_LBRACE && t.type ≠ .TOK_EOF)
          if (cur_token ts).type ≠ .TOK_LBRACE then (none, ts)
          else
            let (body, ts1) := parser_parse_block ts
            (some { name := name, body := some body }, ts1)

/-- `parser_parse_api_route`: consume `api`, expect a method (identifier or
the `get` keyword), a string-literal path, `(`, `)`, `->`, skip to the body
`\x7b`, and parse the handler block into a `FunctionDecl` named "handler". -/
def parser_parse_api_route (ts : List MkToken) : Option ApiRoute × List MkToken :=
  let ts := ts.tail
  if (cur_token ts).type ≠ .TOK_IDENTIFIER && (cur_token ts).type ≠ .TOK_GET then
    (none, ts)
  else
    let method := (cur_token ts).text
    let ts := ts.tail
    if (cur_token ts).type ≠ .TOK_STRING_LITERAL then (none, ts)
    else
      let path := (cur_token ts).text
      let ts := ts.tail
      if (cur_token ts).type ≠ .TOK_LPAREN then (none, ts)
      else
        let ts := ts.tail
        if (cur_token ts).type ≠ .TOK_RPAREN then (none, ts)
        else
          let ts := ts.tail
          if (cur_token ts).type ≠ .TOK_ARROW then (none, ts)
          else
            let ts := ts.tail
            let ts := ts.dropWhile
              (fun t => t.type ≠ .TOK_LBRACE && t.type ≠ .TOK_EOF)
            if (cur_token ts).type ≠ .TOK_LBRACE then (none, ts)
            else
              let (body, ts1) := parser_parse_block ts
              (some { method := method, path := path,
                      handler := { name := "handler", body := some body } }, ts1)

/-- The declaration loop of `parser_parse_program`: `fn` starts a function,
`api` an API route, anything else is skipped; a parse failure contributes
nothing.  Each iteration consumes at least one token, so fuel
`ts.length + 1` always reaches the end. -/
def parser_parse_program_loop :
    Nat → List MkToken → List FunctionDecl → List ApiRoute →
      List FunctionDecl × List ApiRoute
  | 0, _, fns, routes => (fns, routes)
  | fuel + 1, ts, fns, routes =>
    match (cur_token ts).type with
    | .TOK_EOF => (fns, routes)
    | .TOK_FN =>
      let (f, ts1) := parser_parse_function ts
      match f with
      | some fd => parser_parse_program_loop fuel ts1 (fns ++ [fd]) routes
      | none => parser_parse_program_loop fuel ts1 fns routes
    | .TOK_API =>
      let (r, ts1) := parser_parse_api_route ts
      match r with
      | some rt => parser_parse_program_loop fuel ts1 fns (routes ++ [rt])
      | none => parser_parse_program_loop fuel ts1 fns routes
    | _ => parser_parse_program_loop fuel ts.tail fns routes

/-- `parser_parse_program`: create the single default module named "main"
with path "main.mk", collect every parsed function and API route into it
(whatever the input holds — there is no `module` handling), and return the
program containing exactly that module. -/
def parser_parse_program (ts : List MkToken) : Program :=
  let r := parser_parse_program_loop (ts.length + 1) ts [] []
  { modules := [{ name := "main", path := "main.mk",
                  api_routes := r.2, functions := r.1 }] }

/-! ## Canonical formatter (formatter.c) -/

/-- The `Formatter` record of formatter.h: the output buffer and the
indentation level. -/
structure Formatter where
  buffer : String
  indent_level : Nat
deriving DecidableEq, Repr

/-- `formatter_create` of formatter.c. -/
def formatter_create : Formatter :=
  { buffer := "", indent_level := 0 }

/-- `formatter_append` of formatter.c. -/
def formatter_append (f : Formatter) (str : String) : Formatter :=
  { f with buffer := f.buffer ++ str }

/-- `formatter_append_indent` of formatter.c: four spaces per level. -/
def formatter_append_indent (f : Formatter) : Formatter :=
  formatter_append f (String.mk (List.replicate (f.indent_level * 4) ' '))

/-- `formatter_format_literal` of formatter.c: a string literal is re-emitted
raw between plain quotes (no escaping). -/
def formatter_format_literal (f : Formatter) (v : LitVal) : Formatter :=
  match v with
  | .LIT_STRING sv => formatter_append (formatter_append (formatter_append f "\"") sv) "\""
  | .LIT_INT64 iv => formatter_append f (toString iv)
  | .LIT_BOOL bv => formatter_append f (if bv then "true" else "false")
  | .LIT_UNIT => formatter_append f "unit"

mutual

/-- `formatter_format_expr` of formatter.c; the default branch prints a TODO
comment. -/
def formatter_format_expr (f : Formatter) : JExpr → Formatter
  | .literal v => formatter_format_literal f v
  | .identifier n => formatter_append f n
  | .call fn args =>
    let f := formatter_format_expr f fn
    let f := formatter_append f "("
    let f := formatter_format_args f true args
    formatter_append f ")"
  | .other_node => formatter_append f "/* TODO: unimplemented expr */"

/-- The argument loop of `formatter_format_call` (", " before every
argument but the first). -/
def formatter_format_args (f : Formatter) (first : Bool) : JExprArgs → Formatter
  | .nil => f
  | .cons a rest =>
    let f := if first then f else formatter_append f ", "
    formatter_format_args (formatter_format_expr f a) false rest

end

/-- The statement loop of `formatter_format_block`: one placeholder line per
statement. -/
def formatter_format_statements (f : Formatter) : Nat → Formatter
  | 0 => f
  | n + 1 =>
    formatter_format_statements
      (formatter_append (formatter_append_indent f) "// TODO: statement\n") n

/-- `formatter_format_block` of formatter.c. -/
def formatter_format_block (f : Formatter) (b : Block) : Formatter :=
  let f := formatter_append f " \x7b\n"
  let f := { f with indent_level := f.indent_level + 1 }
  let f := formatter_format_statements f b.statement_count
  let f :=
    match b.result_expr with
    | some e => formatter_append (formatter_format_expr (formatter_append_indent f) e) "\n"
    | none => f
  let f := { f with indent_level := f.indent_level - 1 }
  formatter_append (formatter_append_indent f) "\x7d\n"

/-- `formatter_format_function` of formatter.c: the signature is printed as
the fixed text `() -> String` whatever the declaration says. -/
def formatter_format_function (f : Formatter) (fn : FunctionDecl) : Formatter :=
  let f := formatter_append f "fn "
  let f := formatter_append f fn.name
  let f := formatter_append f "() -> String"
  let f :=
    match fn.body with
    | some b => formatter_format_block f b
    | none => formatter_append f " \x7b\n    // TODO: function body\n\x7d\n"
  formatter_append f "\n"

/-- `formatter_format_api_route` of formatter.c. -/
def formatter_format_api_route (f : Formatter) (api : ApiRoute) : Formatter :=
  let f := formatter_append f "api "
  let f := formatter_append f api.method
  let f := formatter_append f " \""
  let f := formatter_append f api.path
  let f := formatter_append f "\" () -> String \x7b\n"
  let f :=
    match api.handler.body with
    | some b =>
      match b.result_expr with
      | some e =>
        let f := { f with indent_level := f.indent_level + 1 }
        let f := formatter_format_expr (formatter_append_indent f) e
        { f with indent_level := f.indent_level - 1 }
      | none => f
    | none => f
  formatter_append f "\n\x7d\n\n"

/-- `formatter_format_program` of formatter.c: per module, API routes first,
then functions. -/
def formatter_format_program (f : Formatter) (p : Program) : Formatter :=
  p.modules.foldl
    (fun f m =>
      let f := m.api_routes.foldl formatter_format_api_route f
      m.functions.foldl formatter_format_function f)
    f

/-- `formatter_get_code` of formatter.c. -/
def formatter_get_code (f : Formatter) : String :=
  f.buffer

/-! ## JS emitter (js_emitter.c) and the driver (mkc.c) -/

/-- The `JSEmitter` record of js_emitter.h: the output buffer. -/
structure JSEmitter where
  buffer : String
deriving DecidableEq, Repr

/-- `js_emitter_create` of js_emitter.c. -/
def js_emitter_create : JSEmitter :=
  { buffer := "" }

/-- `js_emitter_append` of js_emitter.c. -/
def js_emitter_append (em : JSEmitter) (str : String) : JSEmitter :=
  { em with buffer := em.buffer ++ str }

/-- `js_emitter_emit_literal` of js_emitter.c: a Unit literal is lowered to
the identifier `undefined`. -/
def js_emitter_emit_literal (em : JSEmitter) (v : LitVal) : JSEmitter :=
  match v with
  | .LIT_STRING sv =>
    js_emitter_append (js_emitter_append (js_emitter_append em "\"") sv) "\""
  | .LIT_INT64 iv => js_emitter_append em (toString iv)
  | .LIT_BOOL bv => js_emitter_append em (if bv then "true" else "false")
  | .LIT_UNIT => js_emitter_append em "undefined"

mutual

/-- `js_emitter_emit_expr` of js_emitter.c; the default branch prints a TODO
comment. -/
def js_emitter_emit_expr (em : JSEmitter) : JExpr → JSEmitter
  | .literal v => js_emitter_emit_literal em v
  | .identifier n => js_emitter_append em n
  | .call fn args =>
    let em := js_emitter_emit_expr em fn
    let em := js_emitter_append em "("
    let em := js_emitter_emit_args em true args
    js_emitter_append em ")"
  | .other_node => js_emitter_append em "/* TODO: unimplemented expr */"

/-- The argument loop of `js_emitter_emit_call`. -/
def js_emitter_emit_args (em : JSEmitter) (first : Bool) : JExprArgs → JSEmitter
  | .nil => em
  | .cons a rest =>
    let em := if first then em else js_emitter_append em ", "
    js_emitter_emit_args (js_emitter_emit_expr em a) false rest

end

/-- The statement loop of `js_emitter_emit_block`. -/
def js_emitter_emit_statements (em : JSEmitter) : Nat → JSEmitter
  | 0 => em
  | n + 1 =>
    js_emitter_emit_statements (js_emitter_append em "    // TODO: statement\n") n

/-- `js_emitter_emit_block` of js_emitter.c. -/
def js_emitter_emit_block (em : JSEmitter) (b : Block) : JSEmitter :=
  let em := js_emitter_append em "\x7b\n"
  let em := js_emitter_emit_statements em b.statement_count
  let em :=
    match b.result_expr with
    | some e =>
      js_emitter_append (js_emitter_emit_expr (js_emitter_append em "    return ") e) ";\n"
    | none => em
  js_emitter_append em "\x7d\n"

/-- `js_emitter_emit_function` of js_emitter.c (parameters and effects are
ignored, per the source comment). -/
def js_emitter_emit_function (em : JSEmitter) (fn : FunctionDecl) : JSEmitter :=
  let em := js_emitter_append em "function "
  let em := js_emitter_append em fn.name
  let em := js_emitter_append em "("
  let em := js_emitter_append em ") "
  let em :=
    match fn.body with
    | some b => js_emitter_emit_block em b
    | none => js_emitter_append em "\x7b /* TODO: function body */ \x7d\n"
  js_emitter_append em "\n"

/-- `js_emitter_emit_api_route` of js_emitter.c: a comment line plus the
handler function. -/
def js_emitter_emit_api_route (em : JSEmitter) (route : ApiRoute) : JSEmitter :=
  let em := js_emitter_append em "// API route: "
  let em := js_emitter_append em route.method
  let em := js_emitter_append em " "
  let em := js_emitter_append em route.path
  let em := js_emitter_append em "\n"
  js_emitter_emit_function em route.handler

/-- The module loop of `js_emitter_emit_program`, also tracking the last
function named "main" (the C keeps overwriting `main_func`). -/
def js_emitter_emit_modules (em : JSEmitter) (main_func : Option FunctionDecl) :
    List Module → JSEmitter × Option FunctionDecl
  | [] => (em, main_func)
  | m :: rest =>
    let em := m.api_routes.foldl js_emitter_emit_api_route em
    let (em, main_func) := m.functions.foldl
      (fun (acc : JSEmitter × Option FunctionDecl) fn =>
        let em := js_emitter_emit_function acc.1 fn
        if fn.name == "main" then (em, some fn) else (em, acc.2))
      (em, main_func)
    js_emitter_emit_modules em main_func rest

/-- `js_emitter_emit_program` of js_emitter.c: the strict-mode header, every
module's API routes and functions, then a `console.log` trailer that calls
`main` when one was seen. -/
def js_emitter_emit_program (em : JSEmitter) (p : Program) : JSEmitter :=
  let em := js_emitter_append em "\"use strict\";\n\n"
  let em := js_emitter_append em "// Manaknight compiled code\n\n"
  let (em, main_func) := js_emitter_emit_modules em none p.modules
  match main_func with
  | some _ =>
    js_emitter_append (js_emitter_append em "\n// Call main function\n")
      "console.log(main());\n"
  | none =>
    js_emitter_append (js_emitter_append em "\n// No main function found\n")
      "console.log(\"No main function defined\");\n"

/-- `js_emitter_get_code` of js_emitter.c. -/
def js_emitter_get_code (em : JSEmitter) : String :=
  em.buffer

/-- The `CompilerOutput` record of mkc.c (`openapi_spec`, a separate
artifact no claim touches, is not modelled). -/
structure CompilerOutput where
  js_code : String
  error_count : Nat
  errors : List String
deriving DecidableEq, Repr

/-- `compile_manaknight` of mkc.c: lex, parse, and emit JavaScript.  The
semantic phases are absent from the source ("TODO: Add remaining
compilation phases / Phase 3: Semantic analysis (type checking, effect
analysis, etc.)"), and every error branch of the source is an
allocation/initialization failure that cannot arise in the embedding, so
the output always carries an empty error list. -/
def compile_manaknight (source : String) : CompilerOutput :=
  let program := parser_parse_program (mk_tokenize source)
  let emitter := js_emitter_emit_program js_emitter_create program
  { js_code := js_emitter_get_code emitter, error_count := 0, errors := [] }

/-! ## Concrete claim scenarios -/

/-- The scenario `let x = 1; \x7b let x = 2 \x7d`, first declaration: `x`
declared in the table's current (global) scope. -/
def c1_outer_declare : Bool × SymbolTable × List Nat :=
  declare_symbol create_symbol_table
    (create_symbol "x" .SYMBOL_VARIABLE (some (create_primitive_type .PRIM_INT)))

/-- The nested block scope entered after the outer declaration. -/
def c1_block_table : SymbolTable :=
  enter_scope c1_outer_declare.2.1 "block"

/-- The inner `let x = 2`, declared in the nested scope while `x` is bound
in the enclosing scope. -/
def c1_inner_declare : Bool × SymbolTable × List Nat :=
  declare_symbol c1_block_table
    (create_symbol "x" .SYMBOL_VARIABLE (some (create_primitive_type .PRIM_INT)))

/-- A redeclaration of `x` in the same (global) scope, for contrast. -/
def c1_same_scope_declare : Bool × SymbolTable × List Nat :=
  declare_symbol c1_outer_declare.2.1 (create_symbol "x" .SYMBOL_VARIABLE none)

/-- The effect-escalation scenario input of the specification:
`fn pure() -> Int \x7b now() \x7d` with `fn now() -> Int uses \x7b time \x7d \x7b 42 \x7d`. -/
def c2_source : String :=
  "fn pure() -> Int \x7b now() \x7d\nfn now() -> Int uses \x7b time \x7d \x7b 42 \x7d"

/-- A symbol table holding the prelude and a variable `opt` of the named
type `Option`, the scrutinee environment of the non-exhaustive-match
scenario. -/
def c3_table : SymbolTable :=
  (declare_symbol (load_prelude create_symbol_table)
    (create_symbol "opt" .SYMBOL_VARIABLE (some (create_named_type "Option")))).2.1

/-- A checker over `c3_table`. -/
def c3_checker : TypeChecker :=
  create_type_checker c3_table

/-- A match on the Option-typed `opt` with only a `some` arm — the missing
`none` constructor should be E4001 per the claim. -/
def c3_match : Expr :=
  .match_expr (.identifier "opt") [(.constructor "some", .literal .LIT_INT)]

/-- A dependency graph holding modules "A" and "B" and no edges. -/
def c4_graph : DependencyGraph :=
  add_module_to_graph (add_module_to_graph create_dependency_graph "A") "B"

/-- `add_dependency(A, B)` on the two-module graph. -/
def c4_first_edge : Bool × DependencyGraph × List Nat :=
  add_dependency c4_graph "A" "B"

/-- `add_dependency(B, A)` after the first edge — the edge that closes the
cycle. -/
def c4_second_edge : Bool × DependencyGraph × List Nat :=
  add_dependency c4_first_edge.2.1 "B" "A"

/-- A source whose function body holds a string literal left unterminated
with a trailing backslash: `fn f() -> S \x7b "ab\\` (the driver lexer keeps
the raw text `ab\\`). -/
def c5_source : String :=
  "fn f() -> S \x7b \"ab\\"

/-- The parse of `c5_source`. -/
def c5_first_parse : Program :=
  parser_parse_program (mk_tokenize c5_source)

/-- The formatter's output for that parse. -/
def c5_formatted : String :=
  formatter_get_code (formatter_format_program formatter_create c5_first_parse)

/-- The parse of the formatted output. -/
def c5_reparse : Program :=
  parser_parse_program (mk_tokenize c5_formatted)

/-- The string literals sitting in block-result position, per module and
function — the part of the AST on which the round-trip comparison turns. -/
def result_literal_strings (p : Program) : List (List (Option String)) :=
  p.modules.map fun m =>
    m.functions.map fun fn =>
      ((fn.body.bind fun b => b.result_expr).bind fun e =>
        match e with
        | JExpr.literal (.LIT_STRING sv) => some sv
        | _ => none)

/-- `next_token` on the source "==". -/
def c6_first : CToken × CLexer :=
  next_token (create_lexer "==")

/-- The token after it. -/
def c6_second : CToken × CLexer :=
  next_token c6_first.2

/-- A program whose `main` returns the Unit literal (`fn main() -> Unit
\x7b unit \x7d` as the parser AST represents it). -/
def c7_program : Program :=
  { modules := [{ name := "main", path := "main.mk", api_routes := []
                  functions := [{ name := "main"
                                  body := some { statement_count := 0
                                                 result_expr := some (.literal .LIT_UNIT) } }] }] }

/-- The JavaScript the emitter produces for `c7_program`. -/
def c7_output : String :=
  js_emitter_get_code (js_emitter_emit_program js_emitter_create c7_program)

/-- A source opening with a `module` declaration ahead of a function. -/
def c9_module_source : String :=
  "module auth \x7b \x7d fn f() -> S \x7b \"x\" \x7d"

/-! ## Theorems settling the claims -/

set_option maxRecDepth 8000

/-- C1: the claim says a declaration whose name is bound in the current *or
any enclosing* scope is rejected with E2006.  The code checks only
`symbol_exists_in_current_scope`: with `x` declared in the enclosing scope
(and visible there, third conjunct), the inner declaration of `x` succeeds
and no E2006 is reported — while a same-scope redeclaration (last conjunct)
is indeed rejected with E2006.  The program `let x = 1; \x7b let x = 2 \x7d`
is accepted silently, against the claim and the repository's own shadowing
rule. -/
theorem shadowing_in_nested_scope_not_rejected :
    c1_outer_declare.1 = true ∧ c1_outer_declare.2.2 = [] ∧
    (resolve_symbol c1_block_table "x").isSome = true ∧
    c1_inner_declare.1 = true ∧ c1_inner_declare.2.2 = [] ∧
    c1_same_scope_declare.1 = false ∧
    c1_same_scope_declare.2.2 = [E2006_REASSIGNMENT_FORBIDDEN] :=
  ⟨rfl, rfl, rfl, rfl, rfl, rfl, rfl⟩

/-- C2: the claim says the pure/effectful scenario yields exactly E3002.
`compile_manaknight` runs no effect analysis at all (mkc.c stops at the
"TODO: Add remaining compilation phases" marker), so its output carries no
error for any input; in particular the scenario input parses into its two
functions and compiles with an empty error list, E3002 never among them. -/
theorem compile_manaknight_reports_no_errors :
    (∀ source : String,
      (compile_manaknight source).errors = [] ∧
      (compile_manaknight source).error_count = 0) ∧
    ((parser_parse_program (mk_tokenize c2_source)).modules.map fun m =>
      m.functions.map fun fn => fn.name) = [["pure", "now"]] ∧
    (compile_manaknight c2_source).errors = [] :=
  ⟨fun _ => ⟨rfl, rfl⟩, rfl, rfl⟩

/-- C3: the claim says a match covering only `some` of an Option scrutinee
yields E4001 listing the missing `none`.  `check_match_exhaustiveness` is a
placeholder returning true for every match and reporting nothing, and
`type_check_match` (the expression form) never calls it: the one-arm match
on the Option-typed `opt` checks to Int with no error reported at all. -/
theorem non_exhaustive_match_not_reported :
    (∀ fuel : Nat,
      type_check_expression_fuel (fuel + 2) c3_checker c3_match =
        (some (Ty.primitive .PRIM_INT), c3_checker)) ∧
    (∀ (c : TypeChecker) (e : Expr), check_match_exhaustiveness c e = (true, c)) :=
  ⟨fun _ => rfl, fun _ _ => rfl⟩

/-- C4: the claim says no-E5004 runs leave the module graph acyclic.
`add_dependency` runs its DFS on the graph *before* inserting the new edge,
so the edge that itself closes a cycle passes the check: on modules A and B,
adding A→B and then B→A both succeed with no E5004 reported, yet the final
matrix holds both edges — a cycle, which the code's own `detect_cycle` then
confirms. -/
theorem cycle_admitted_without_e5004 :
    c4_first_edge.1 = true ∧ c4_first_edge.2.2 = [] ∧
    c4_second_edge.1 = true ∧ c4_second_edge.2.2 = [] ∧
    c4_second_edge.2.1.dep_at 0 1 = true ∧
    c4_second_edge.2.1.dep_at 1 0 = true ∧
    detect_cycle c4_second_edge.2.1 "A" = true :=
  ⟨rfl, rfl, rfl, rfl, rfl, rfl, rfl⟩

/-- C5: the claim says re-parsing the formatter's output reproduces the AST.
For `c5_source` the first parse holds the raw literal `ab\\`; the formatter
re-emits it unescaped between quotes, where the trailing backslash escapes
the closing quote, so the re-parse swallows the block's closing brace into a
different string literal: the two ASTs differ. -/
theorem format_roundtrip_changes_ast :
    result_literal_strings c5_first_parse = [[some "ab\\"]] ∧
    result_literal_strings c5_reparse = [[some "ab\\\"\n\x7d\n"]] ∧
    c5_reparse ≠ c5_first_parse := by
  refine ⟨rfl, rfl, fun h => ?_⟩
  have h2 : ([[some "ab\\\"\n\x7d\n"]] : List (List (Option String))) = [[some "ab\\"]] := by
    calc ([[some "ab\\\"\n\x7d\n"]] : List (List (Option String)))
        = result_literal_strings c5_reparse := rfl
      _ = result_literal_strings c5_first_parse := congrArg result_literal_strings h
      _ = [[some "ab\\"]] := rfl
  exact absurd h2 (by decide)

/-- C6: the claim says the two-character operators are lexed by a
one-character peek into single two-character tokens.  In `next_token` the
single-character switch runs first and returns on `=`, `|`, `-`, `<`, `>`
and `!`, so the peek code after it is unreachable: "==" comes back as two
one-character TOKEN_EQUALS_SIGN tokens, "|>" starts with TOKEN_PIPE and
"->" with TOKEN_MINUS. -/
theorem two_char_operators_lexed_as_single_chars :
    c6_first.1.type = .TOKEN_EQUALS_SIGN ∧
    c6_first.1.lexeme = "=" ∧
    c6_first.1.length = 1 ∧
    c6_second.1.type = .TOKEN_EQUALS_SIGN ∧
    (next_token (create_lexer "|>")).1.type = .TOKEN_PIPE ∧
    (next_token (create_lexer "->")).1.type = .TOKEN_MINUS :=
  ⟨rfl, rfl, rfl, rfl, rfl, rfl⟩

/-- C7: the claim says the emitted JavaScript never contains the identifier
`undefined`, Unit literals included.  `js_emitter_emit_literal` lowers the
Unit literal to exactly that identifier: the emitted text for `c7_program`
contains "undefined" (inside `return undefined;`). -/
theorem unit_literal_emits_undefined :
    "undefined".data <:+: c7_output.data := by
  decide

/-- C8: for every if-expression, a condition whose type is not the Bool
primitive reports E2007 and yields no type; branch types that fail
`types_equal` (a NULL branch type included) report E2002 and yield no type;
otherwise the expression gets the then-branch's type with no new report —
exactly as the claim states. -/
theorem type_check_if_rules :
    (∀ (tc : TypeChecker → Expr → Option Ty × TypeChecker) (c : TypeChecker)
        (condition then_branch else_branch : Expr),
      let ct := tc c condition
      let tt := tc ct.2 then_branch
      let et := tc tt.2 else_branch
      (is_bool_primitive ct.1 = false →
        type_check_if_with tc c condition then_branch else_branch =
          (none, report_type_error_at ct.2 E2007_INVALID_CONDITION_TYPE)) ∧
      (is_bool_primitive ct.1 = true → types_equal tt.1 et.1 = false →
        type_check_if_with tc c condition then_branch else_branch =
          (none, report_type_error_at et.2 E2002_TYPE_MISMATCH)) ∧
      (is_bool_primitive ct.1 = true → types_equal tt.1 et.1 = true →
        type_check_if_with tc c condition then_branch else_branch = (tt.1, et.2))) ∧
    (∀ (fuel : Nat) (c : TypeChecker) (condition then_branch else_branch : Expr),
      type_check_expression_fuel (fuel + 1) c
          (.if_expr condition then_branch else_branch) =
        type_check_if_with (type_check_expression_fuel fuel) c
          condition then_branch else_branch) := by
  constructor
  · intro tc c condition then_branch else_branch
    refine ⟨fun h => ?_, fun h1 h2 => ?_, fun h1 h2 => ?_⟩
    · simp [type_check_if_with, h]
    · simp [type_check_if_with, h1, h2]
    · simp [type_check_if_with, h1, h2]
  · intro fuel c condition then_branch else_branch
    rfl

/-- C9: for every token stream, `parser_parse_program` returns a program of
exactly one module named "main" with path "main.mk"; a `module` declaration
in the source is skipped as an unknown token and the functions land in that
single module. -/
theorem parser_parse_program_single_main_module :
    (∀ ts : List MkToken,
      ((parser_parse_program ts).modules.map fun m => (m.name, m.path)) =
        [("main", "main.mk")]) ∧
    ((parser_parse_program (mk_tokenize c9_module_source)).modules.map fun m =>
      (m.name, m.functions.map fun fn => fn.name)) = [("main", ["f"])] :=
  ⟨fun _ => rfl, rfl⟩

/-- C10: `create_error` assigns the category purely from the thousand-range
of the code — the nine ranges map to their categories, and any code outside
all of them (below 1000 or above 9999) defaults to CATEGORY_INTERNAL. -/
theorem create_error_categorizes_by_range (code : Nat) (message : String)
    (file : Option String) (line column : Nat) :
    ((create_error code message file line column).category = .CATEGORY_SYNTAX ↔
      1000 ≤ code ∧ code ≤ 1999) ∧
    ((create_error code message file line column).category = .CATEGORY_TYPE ↔
      2000 ≤ code ∧ code ≤ 2999) ∧
    ((create_error code message file line column).category = .CATEGORY_EFFECT ↔
      3000 ≤ code ∧ code ≤ 3999) ∧
    ((create_error code message file line column).category = .CATEGORY_PATTERN ↔
      4000 ≤ code ∧ code ≤ 4999) ∧
    ((create_error code message file line column).category = .CATEGORY_MODULE ↔
      5000 ≤ code ∧ code ≤ 5999) ∧
    ((create_error code message file line column).category = .CATEGORY_API ↔
      6000 ≤ code ∧ code ≤ 6999) ∧
    ((create_error code message file line column).category = .CATEGORY_RUNTIME ↔
      7000 ≤ code ∧ code ≤ 7999) ∧
    ((create_error code message file line column).category = .CATEGORY_RESOURCE ↔
      8000 ≤ code ∧ code ≤ 8999) ∧
    ((create_error code message file line column).category = .CATEGORY_INTERNAL ↔
      (9000 ≤ code ∧ code ≤ 9999) ∨ code < 1000 ∨ 9999 < code) := by
  simp only [create_error, ERROR_SYNTAX_MIN, ERROR_SYNTAX_MAX, ERROR_TYPE_MIN,
    ERROR_TYPE_MAX, ERROR_EFFECT_MIN, ERROR_EFFECT_MAX, ERROR_PATTERN_MIN,
    ERROR_PATTERN_MAX, ERROR_MODULE_MIN, ERROR_MODULE_MAX, ERROR_API_MIN,
    ERROR_API_MAX, ERROR_RUNTIME_MIN, ERROR_RUNTIME_MAX, ERROR_RESOURCE_MIN,
    ERROR_RESOURCE_MAX, ERROR_INTERNAL_MIN, ERROR_INTERNAL_MAX]
  split_ifs <;> simp_all <;> omega

end Manaknight
